import Mathlib

/-!
Verification development for the Veritas content pipeline
(scout / moderator / analyst / dispatcher services plus the shared
credential validator and the concierge credential issuer).

The Python sources are embedded shallowly: SQLite tables become lists of
records, Redis becomes an association list from queue key to message
list, machine-level details (HTTP plumbing, JSON wire encoding) are cut
at the interface boundary exactly where the services cut them, and the
external LLM / SMTP / token-exchange calls become oracles supplied as
parameters.  All definitions are executable.
-/

namespace Veritas

/-! ## Python truthiness helpers

Python's `a or b` on strings treats `""` and `None` as falsy.  These
helpers reproduce that behaviour for optional strings. -/

/-- Python `a or b` where `a` is an optional string (`None` and `""` are
falsy). -/
def pyOrStr (a : Option String) (b : String) : String :=
  match a with
  | none => b
  | some s => if s = "" then b else s

/-- Python truthiness of an optional string. -/
def pyTruthyStr (a : Option String) : Bool :=
  match a with
  | none => false
  | some s => s ≠ ""

/-- Python truthiness of an optional integer (`None` and `0` are falsy). -/
def pyTruthyInt (a : Option Int) : Bool :=
  match a with
  | none => false
  | some n => n ≠ 0

/-- Python `str.split()`: split on whitespace runs, dropping empty pieces. -/
def pySplitWs (s : String) : List String :=
  (s.split (fun c => c.isWhitespace)).filter (fun t => t ≠ "")

/-- Python `str.strip()`: drop leading and trailing whitespace. -/
def pyStrip (s : String) : String :=
  String.mk (((s.data.dropWhile Char.isWhitespace).reverse.dropWhile Char.isWhitespace).reverse)

/-! ## SHA-256

A byte-level SHA-256 over `List Nat` (each entry a byte), used by
`scout.fingerprint` and `moderator.compute_content_hash`.  Words are
`Nat`s reduced mod `2 ^ 32` explicitly. -/

namespace Sha256

def w32 (n : Nat) : Nat := n % 4294967296

def rotr (n x : Nat) : Nat := w32 ((x >>> n) ||| (x <<< (32 - n)))

def ch (x y z : Nat) : Nat := (x &&& y) ^^^ ((x ^^^ 4294967295) &&& z)

def maj (x y z : Nat) : Nat := (x &&& y) ^^^ (x &&& z) ^^^ (y &&& z)

def bigS0 (x : Nat) : Nat := rotr 2 x ^^^ rotr 13 x ^^^ rotr 22 x

def bigS1 (x : Nat) : Nat := rotr 6 x ^^^ rotr 11 x ^^^ rotr 25 x

def smallS0 (x : Nat) : Nat := rotr 7 x ^^^ rotr 18 x ^^^ (x >>> 3)

def smallS1 (x : Nat) : Nat := rotr 17 x ^^^ rotr 19 x ^^^ (x >>> 10)

def K : List Nat :=
  [1116352408, 1899447441, 3049323471, 3921009573, 961987163, 1508970993,
   2453635748, 2870763221, 3624381080, 310598401, 607225278, 1426881987,
   1925078388, 2162078206, 2614888103, 3248222580, 3835390401, 4022224774,
   264347078, 604807628, 770255983, 1249150122, 1555081692, 1996064986,
   2554220882, 2821834349, 2952996808, 3210313671, 3336571891, 3584528711,
   113926993, 338241895, 666307205, 773529912, 1294757372, 1396182291,
   1695183700, 1986661051, 2177026350, 2456956037, 2730485921, 2820302411,
   3259730800, 3345764771, 3516065817, 3600352804, 4094571909, 275423344,
   430227734, 506948616, 659060556, 883997877, 958139571, 1322822218,
   1537002063, 1747873779, 1955562222, 2024104815, 2227730452, 2361852424,
   2428436474, 2756734187, 3204031479, 3329325298]

def H0 : List Nat :=
  [1779033703, 3144134277, 1013904242, 2773480762, 1359893119,
   2600822924, 528734635, 1541459225]

/-- Big-endian split of `n` into `k` bytes. -/
def beBytes (k n : Nat) : List Nat :=
  match k with
  | 0 => []
  | k' + 1 => ((n >>> (8 * k')) &&& 255) :: beBytes k' n

/-- SHA-256 padding: append `0x80`, zeros, and the 64-bit bit length. -/
def pad (msg : List Nat) : List Nat :=
  let len := msg.length
  let zeros := (64 - (len + 9) % 64) % 64
  msg ++ [128] ++ List.replicate zeros 0 ++ beBytes 8 (8 * len)

/-- Group bytes into big-endian 32-bit words. -/
def toWords : List Nat → List Nat
  | a :: b :: c :: d :: rest => (((a <<< 24) ||| (b <<< 16) ||| (c <<< 8) ||| d)) :: toWords rest
  | _ => []

/-- Group a word list into 16-word blocks (fuel-driven for kernel
reduction). -/
def toBlocksAux : Nat → List Nat → List (List Nat)
  | 0, _ => []
  | fuel + 1, ws =>
    if ws.length < 16 then [] else ws.take 16 :: toBlocksAux fuel (ws.drop 16)

def toBlocks (ws : List Nat) : List (List Nat) := toBlocksAux ws.length ws

/-- Extend the 16 block words to the 64-entry message schedule.  The
accumulator keeps the schedule in reverse (most recent word first). -/
def schedAux (rev : List Nat) : Nat → List Nat
  | 0 => rev.reverse
  | f + 1 =>
    let x := w32 (smallS1 (rev.getD 1 0) + rev.getD 6 0 +
                  smallS0 (rev.getD 14 0) + rev.getD 15 0)
    schedAux (x :: rev) f

def sched (block : List Nat) : List Nat := schedAux block.reverse 48

/-- One compression round. -/
def round (st : List Nat) (k w : Nat) : List Nat :=
  match st with
  | [a, b, c, d, e, f, g, h] =>
    let t1 := w32 (h + bigS1 e + ch e f g + k + w)
    let t2 := w32 (bigS0 a + maj a b c)
    [w32 (t1 + t2), a, b, c, w32 (d + t1), e, f, g]
  | other => other

/-- Compress one 512-bit block into the running hash state. -/
def compress (h : List Nat) (block : List Nat) : List Nat :=
  let ks := K.zip (sched block)
  let fin := ks.foldl (fun st p => round st p.1 p.2) h
  (h.zip fin).map (fun p => w32 (p.1 + p.2))

/-- SHA-256 of a byte list, as the 32-byte digest. -/
def sha256 (msg : List Nat) : List Nat :=
  let blocks := toBlocks (toWords (pad msg))
  let hf := blocks.foldl compress H0
  hf.foldr (fun wrd acc => beBytes 4 wrd ++ acc) []

def hexChar (n : Nat) : Char :=
  if n < 10 then Char.ofNat (48 + n) else Char.ofNat (87 + n)

def byteHex (b : Nat) : List Char := [hexChar (b / 16), hexChar (b % 16)]

/-- Lowercase hex rendering of a byte list (Python `hexdigest`). -/
def hex (bs : List Nat) : String :=
  String.mk (bs.foldr (fun b acc => byteHex b ++ acc) [])

end Sha256

/-- UTF-8 encoding of one character (Python `str.encode("utf-8")`). -/
def utf8Char (c : Char) : List Nat :=
  let n := c.toNat
  if n < 128 then [n]
  else if n < 2048 then [192 ||| (n >>> 6), 128 ||| (n &&& 63)]
  else if n < 65536 then
    [224 ||| (n >>> 12), 128 ||| ((n >>> 6) &&& 63), 128 ||| (n &&& 63)]
  else
    [240 ||| (n >>> 18), 128 ||| ((n >>> 12) &&& 63),
     128 ||| ((n >>> 6) &&& 63), 128 ||| (n &&& 63)]

/-- UTF-8 bytes of a string. -/
def utf8 (s : String) : List Nat := s.data.foldr (fun c acc => utf8Char c ++ acc) []

/-- Hex SHA-256 of a string's UTF-8 bytes. -/
def sha256hexUtf8 (s : String) : String := Sha256.hex (Sha256.sha256 (utf8 s))

/-! ## Redis queue model

The pipeline queues.  A queue message is the JSON object
`{"item_id": ..., "subscription_id": ...}` that scout pushes and the
moderator forwards; Redis is an association list from queue key to the
list of messages, head = most recently pushed (`LPUSH` prepends,
`BRPOP` consumes from the tail). -/

structure QueueMsg where
  item_id : Int
  subscription_id : Option Int
deriving DecidableEq, Repr

abbrev Redis : Type := List (String × List QueueMsg)

/-- Messages currently on queue `k` (head = most recent `LPUSH`). -/
def rget (r : Redis) (k : String) : List QueueMsg :=
  match List.find? (fun p => p.1 = k) r with
  | some p => p.2
  | none => []

/-- `LPUSH k m`. -/
def lpush (r : Redis) (k : String) (m : QueueMsg) : Redis :=
  (k, m :: rget r k) :: List.filter (fun p => p.1 ≠ k) r

/-- The empty Redis instance. -/
def Redis.empty : Redis := []

/-! ## Scout service (`scout/main.py`)

The ingestion poller.  HTTP fetching, conditional headers and feed
parsing are external (out of scope per the spec); a poll cycle is
embedded from the point where `feedparser` has produced `parsed.entries`. -/

namespace Scout

/-- `scout/main.py` line 29: the queue scout pushes new items onto
(hardcoded, not read from the environment). -/
def QUEUE_KEY : String := "veritas:scout:queue"

/-- `fingerprint(content, url)`: SHA-256 hex digest of
`content + "|" + url` encoded as UTF-8. -/
def fingerprint (content url : String) : String :=
  sha256hexUtf8 (content ++ "|" ++ url)

/-- A row of the `subscriptions` table. -/
structure Subscription where
  id : Int
  user_id : String
  source : String
  url : String
  created_at : Int
deriving DecidableEq, Repr

/-- A row of the `items` table (`subscription_id` is nullable in the
schema). -/
structure Item where
  id : Int
  subscription_id : Option Int
  source : String
  source_id : String
  title : String
  content : String
  url : String
  fetch_time : Int
  fingerprint : String
deriving DecidableEq, Repr

/-- The scout SQLite database plus the AUTOINCREMENT counters. -/
structure ScoutDB where
  subscriptions : List Subscription
  items : List Item
  nextSubId : Int
  nextItemId : Int
deriving DecidableEq, Repr

def ScoutDB.empty : ScoutDB :=
  { subscriptions := [], items := [], nextSubId := 1, nextItemId := 1 }

/-- A parsed feed entry as `feedparser` delivers it: each field may be
absent. -/
structure Entry where
  summary : Option String
  description : Option String
  title : Option String
  link : Option String
  entry_id : Option String
deriving DecidableEq, Repr

/-- `content = e.get("summary") or e.get("description") or e.get("title") or ""`. -/
def entryContent (e : Entry) : String :=
  pyOrStr e.summary (pyOrStr e.description (pyOrStr e.title ""))

/-- `link = e.get("link") or ""`. -/
def entryLink (e : Entry) : String := pyOrStr e.link ""

/-- `sid = e.get("id", link) or link or (e.get("title", "")[:200])`. -/
def entrySid (e : Entry) : String :=
  let link := entryLink e
  let g := match e.entry_id with | some v => v | none => link
  if g ≠ "" then g
  else if link ≠ "" then link
  else (e.title.getD "").take 200

/-- `fp = fingerprint(content, link or sid)`. -/
def entryFp (e : Entry) : String :=
  let link := entryLink e
  fingerprint (entryContent e) (if link ≠ "" then link else entrySid e)

/-- The per-entry body of `_fetch_and_store_once`: compute the
fingerprint, skip if it already exists in `items`, otherwise insert the
row (committed immediately) and `LPUSH` the item reference onto
`QUEUE_KEY`.  No moderation interaction happens here. -/
def processEntry (subId : Int) (source : String) (now : Int)
    (st : ScoutDB × Redis) (e : Entry) : ScoutDB × Redis :=
  let fp := entryFp e
  if st.1.items.any (fun it => it.fingerprint = fp) then st
  else
    let it : Item :=
      { id := st.1.nextItemId, subscription_id := some subId, source := source,
        source_id := entrySid e, title := e.title.getD "", content := entryContent e,
        url := entryLink e, fetch_time := now, fingerprint := fp }
    ({ st.1 with items := st.1.items ++ [it], nextItemId := st.1.nextItemId + 1 },
     lpush st.2 QUEUE_KEY { item_id := st.1.nextItemId, subscription_id := some subId })

/-- One poll cycle of `_fetch_and_store_once` over the parsed entries
(the HTTP fetch and 304 short-circuit are upstream of this point). -/
def fetch_and_store_once (subId : Int) (source : String) (now : Int)
    (entries : List Entry) (st : ScoutDB × Redis) : ScoutDB × Redis :=
  entries.foldl (processEntry subId source now) st

/-- Any number of poll cycles, each observing its own entry list. -/
def pollCycles (subId : Int) (source : String) (now : Int)
    (cycles : List (List Entry)) (st : ScoutDB × Redis) : ScoutDB × Redis :=
  cycles.foldl (fun acc es => fetch_and_store_once subId source now es acc) st

/-- Errors surfaced by the scout HTTP endpoints (`HTTPException`s). -/
inductive ApiError
  | forbidden (detail : String)
  | notFound (detail : String)
  | conflict (detail : String)
deriving DecidableEq, Repr

/-- HTTP status code of each endpoint error. -/
def ApiError.status : ApiError → Nat
  | .forbidden _ => 403
  | .notFound _ => 404
  | .conflict _ => 400

/-- `DELETE /subscriptions/{sub_id}`: scope check, lookup, then delete.
The schema declares `FOREIGN KEY(subscription_id) REFERENCES
subscriptions(id) ON DELETE CASCADE` and the handler runs with
`PRAGMA foreign_keys = ON`, so deleting the subscription row also
deletes every `items` row holding that `subscription_id`.  A missing row
raises a 404 before any delete.  (Poller-task cancellation is an
in-process side effect outside this state.) -/
def delete_subscription (token_scopes : List String) (sub_id : Int)
    (db : ScoutDB) : Except ApiError ScoutDB :=
  if ¬ (token_scopes.contains "data:read:arxiv" ∨
        token_scopes.contains "data:read:twitter") then
    .error (.forbidden "missing read scopes")
  else
    match db.subscriptions.find? (fun s => s.id = sub_id) with
    | none => .error (.notFound "subscription not found")
    | some _ =>
      .ok { db with
            subscriptions := db.subscriptions.filter (fun s => s.id ≠ sub_id),
            items := db.items.filter (fun it => it.subscription_id ≠ some sub_id) }

end Scout

/-! ## Queue-key environment

The queue keys the services read from the environment.  `none` models an
unset variable, in which case the code's default applies.  Note that the
moderator's *output* queue and the analyst's *input* queue are both read
from the same `SCOUT_QUEUE_KEY` variable, and both default to the very
key scout pushes to. -/

structure Env where
  SCOUT_QUEUE_KEY : Option String
  MODERATOR_QUEUE_KEY : Option String
  DISPATCHER_QUEUE : Option String
deriving DecidableEq, Repr

/-- All queue-key variables unset. -/
def Env.default : Env := ⟨none, none, none⟩

/-! ## Moderator service (`moderator/main.py`)

The external LLM call is an oracle `Nat → ModAttempt` giving the outcome
of each attempt. -/

namespace Moderator

/-- `MODERATOR_QUEUE = os.getenv("MODERATOR_QUEUE_KEY", "veritas:moderator:queue")`. -/
def MODERATOR_QUEUE (env : Env) : String :=
  env.MODERATOR_QUEUE_KEY.getD "veritas:moderator:queue"

/-- `ANALYST_QUEUE = os.getenv("SCOUT_QUEUE_KEY", "veritas:scout:queue")` —
the queue the moderator forwards approved items to. -/
def ANALYST_QUEUE (env : Env) : String :=
  env.SCOUT_QUEUE_KEY.getD "veritas:scout:queue"

/-- `compute_content_hash(title, content, url)`. -/
def compute_content_hash (title content url : String) : String :=
  sha256hexUtf8 (title ++ content ++ url)

/-- Outcome of the raw LLM response as the moderator's parser sees it:
either the response text parses to a JSON object (from which the code
reads `allowed`/`categories`/`reason`), or it does not parse. -/
inductive ModResp
  | parsed (allowed : Bool) (categories : List String) (reason : String) (raw : String)
  | unparseable (raw : String)
deriving DecidableEq, Repr

/-- One attempt of `asyncio.wait_for(call_groq_moderator(...), timeout)`. -/
inductive ModAttempt
  | timeout
  | err (msg : String)
  | ok (resp : ModResp)
deriving DecidableEq, Repr

/-- `parse_llm_response`: `(allowed, categories, reason, raw)`, with the
fail-closed fallback `(False, ["other"], "parse_error_or_timeout", raw)`
on a parse failure. -/
def parse_llm_response : ModResp → Bool × List String × String × String
  | .parsed a c r raw => (a, c, r, raw)
  | .unparseable raw => (false, ["other"], "parse_error_or_timeout", raw)

/-- The retry loop of `process_item`: attempt indices count up from `i`;
a successful call breaks out, a timeout or exception records a reason
and continues; exhaustion leaves `allowed = False`, `categories = []`,
`raw = ""` and the last failure reason. -/
def runRetries (oracle : Nat → ModAttempt) : Nat → Nat → String →
    Bool × List String × String × String
  | _, 0, reason => (false, [], reason, "")
  | i, fuel + 1, _ =>
    match oracle i with
    | .ok resp => parse_llm_response resp
    | .timeout => runRetries oracle (i + 1) fuel ("timeout_attempt_" ++ toString (i + 1))
    | .err m => runRetries oracle (i + 1) fuel m

/-- A consumed queue payload after the `obj.get(...)` defaults: messages
pushed by scout carry only `item_id` and `subscription_id`, so the text
fields default to `""`. -/
structure ModMsg where
  item_id : Int
  subscription_id : Option Int
  title : String
  content : String
  url : String
deriving DecidableEq, Repr

def ofQueueMsg (m : QueueMsg) : ModMsg :=
  ⟨m.item_id, m.subscription_id, "", "", ""⟩

/-- A row of `moderation_logs`. -/
structure ModLog where
  id : Int
  subscription_id : Option Int
  user_id : Option String
  item_title : String
  item_url : String
  content_hash : String
  content_snippet : String
  requested_at : Int
  decision_allowed : Bool
  categories : List String
  reason : String
  model_response : String
deriving DecidableEq, Repr

structure ModDB where
  moderation_logs : List ModLog
  nextLogId : Int
deriving DecidableEq, Repr

def ModDB.empty : ModDB := { moderation_logs := [], nextLogId := 1 }

/-- `process_item(obj, retries=2)`: run the retry loop, always persist a
`moderation_logs` row with the decision, and forward to `ANALYST_QUEUE`
only on `allowed = True`. -/
def process_item (env : Env) (oracle : Nat → ModAttempt) (retries : Nat)
    (now : Int) (obj : ModMsg) (st : ModDB × Redis) : ModDB × Redis :=
  let db := st.1
  let r := st.2
  match runRetries oracle 0 retries "" with
  | (allowed, categories, reason, raw) =>
    let log : ModLog :=
      { id := db.nextLogId, subscription_id := obj.subscription_id, user_id := none,
        item_title := obj.title, item_url := obj.url,
        content_hash := compute_content_hash obj.title obj.content obj.url,
        content_snippet := obj.content.take 2000, requested_at := now,
        decision_allowed := allowed, categories := categories,
        reason := reason, model_response := raw }
    let db' := { db with moderation_logs := db.moderation_logs ++ [log],
                         nextLogId := db.nextLogId + 1 }
    if allowed then
      (db', lpush r (ANALYST_QUEUE env)
              { item_id := obj.item_id, subscription_id := obj.subscription_id })
    else (db', r)

end Moderator

/-! ## Rounding helpers (Python `round(x, 2)` / `f"{x:.2f}"`)

Scores are embedded as exact rationals; Python's round-half-to-even at
the second decimal is reproduced by integer arithmetic on the
numerator/denominator (for the decimal score values appearing in the
claims the binary-float detour is exact enough to coincide). -/

/-- Round-half-even of `100 * x` to an integer: the quotient of
`100 * num` by `den`, bumped by the half-even rule on the remainder. -/
def roundHalfEven100 (x : Rat) : Int :=
  let n := x.num * 100
  let d : Int := (x.den : Int)
  let q := Int.ediv n d
  let r := Int.emod n d
  if 2 * r < d then q
  else if d < 2 * r then q + 1
  else if q % 2 = 0 then q else q + 1

/-- Python `round(x, 2)`. -/
def pyRound2 (x : Rat) : Rat := mkRat (roundHalfEven100 x) 100

/-- Python `f"{x:.2f}"`. -/
def fmt2 (x : Rat) : String :=
  let scaled := roundHalfEven100 x
  let sign := if scaled < 0 then "-" else ""
  let a := scaled.natAbs
  sign ++ toString (a / 100) ++ "." ++
    (if a % 100 < 10 then "0" else "") ++ toString (a % 100)

/-- Python `f"{v}"` for an optional string (`None` prints as `"None"`). -/
def pyOptStrRepr (o : Option String) : String :=
  match o with | none => "None" | some s => s

/-- Python `f"{v}"` for an optional integer. -/
def pyOptIntRepr (o : Option Int) : String :=
  match o with | none => "None" | some i => toString i

/-! ## Analyst service (`analyst/main.py`) -/

namespace Analyst

/-- `QUEUE_KEY = os.getenv("SCOUT_QUEUE_KEY", "veritas:scout:queue")` —
the analyst's input queue. -/
def QUEUE_KEY (env : Env) : String :=
  env.SCOUT_QUEUE_KEY.getD "veritas:scout:queue"

/-- What the analyst's parser extracts from a response object: any key
may be absent. -/
structure ParsedInsight where
  insight_type : Option String
  score : Option Rat
  summary : Option String
  evidence : Option (List String)
  recommended_action : Option String
deriving DecidableEq, Repr

/-- Raw LLM response outcome.  `unparseable` also covers a response that
parses to a Python-falsy value (e.g. `{}`), which the code treats
identically (`if not parsed`). -/
inductive LLMResp
  | parsed (p : ParsedInsight) (raw : String)
  | unparseable (raw : String)
  | noText
deriving DecidableEq, Repr

inductive LLMAttempt
  | timeout
  | err (msg : String)
  | ok (resp : LLMResp)
deriving DecidableEq, Repr

/-- `parse_llm_response`: `(parsed, raw_text)`. -/
def parse_llm_response : LLMResp → Option ParsedInsight × Option String
  | .parsed p raw => (some p, some raw)
  | .unparseable raw => (none, some raw)
  | .noText => (none, none)

/-- The retry loop of `process_item` (`retries = 3`): a completed call
breaks out regardless of parse success; timeout and exception continue
to the next attempt leaving `(None, None)` on exhaustion. -/
def runRetries (oracle : Nat → LLMAttempt) : Nat → Nat →
    Option ParsedInsight × Option String
  | _, 0 => (none, none)
  | i, fuel + 1 =>
    match oracle i with
    | .ok resp => parse_llm_response resp
    | .timeout => runRetries oracle (i + 1) fuel
    | .err _ => runRetries oracle (i + 1) fuel

/-- The neutral fallback substituted when no attempt produced a truthy
parse (`if not parsed`). -/
def fallbackParsed : ParsedInsight :=
  { insight_type := some "other", score := some 0, summary := some "",
    evidence := some [], recommended_action := some "no action" }

/-- A row of the `insights` table. -/
structure InsightRow where
  id : Int
  insight_type : Option String
  score : Rat
  summary : Option String
  evidence : List String
  recommended_action : Option String
  raw_response : Option String
  subscription_id : Option Int
  user_id : Option String
  created_at : Int
deriving DecidableEq, Repr

structure AnalystDB where
  insights : List InsightRow
  nextInsightId : Int
deriving DecidableEq, Repr

def AnalystDB.empty : AnalystDB := { insights := [], nextInsightId := 1 }

/-- The dispatch notification payload pushed to the dispatcher queue. -/
structure NotifyMsg where
  insight_id : Int
  subscription_id : Option Int
  user_id : Option String
  score : Rat
  summary : String
deriving DecidableEq, Repr

/-- `load_item`: look the referenced item up in the scout DB. -/
def load_item (db : Scout.ScoutDB) (item_id : Int) : Option Scout.Item :=
  db.items.find? (fun it => it.id = item_id)

/-- `SELECT user_id FROM subscriptions WHERE id = ?`. -/
def userOf (db : Scout.ScoutDB) (sid : Option Int) : Option String :=
  match sid with
  | none => none
  | some s => (db.subscriptions.find? (fun sub => sub.id = s)).map (·.user_id)

/-- `process_item(obj, retries=3)`: load the item (absent → no work),
run the retry loop, substitute the neutral fallback on total failure,
resolve the owner (absent or empty → abandon, no row), then persist
exactly one insight row and emit one dispatch notification.  The state
is `(analyst DB, dispatcher-queue contents oldest-first)`. -/
def process_item (oracle : Nat → LLMAttempt) (retries : Nat) (now : Int)
    (scoutDb : Scout.ScoutDB) (obj : QueueMsg)
    (st : AnalystDB × List NotifyMsg) : AnalystDB × List NotifyMsg :=
  match load_item scoutDb obj.item_id with
  | none => st
  | some item =>
    let pr := runRetries oracle 0 retries
    let parsed := pr.1.getD fallbackParsed
    let raw := pr.2
    match userOf scoutDb item.subscription_id with
    | none => st
    | some u =>
      if u = "" then st
      else
        let score := pyRound2 (parsed.score.getD 0)
        let summary := (parsed.summary.getD "").take 1000
        let row : InsightRow :=
          { id := st.1.nextInsightId,
            insight_type := some (parsed.insight_type.getD "other"),
            score := score, summary := some summary,
            evidence := parsed.evidence.getD [],
            recommended_action := some (parsed.recommended_action.getD ""),
            raw_response := raw, subscription_id := item.subscription_id,
            user_id := some u, created_at := now }
        ({ insights := st.1.insights ++ [row],
           nextInsightId := st.1.nextInsightId + 1 },
         st.2 ++ [{ insight_id := st.1.nextInsightId,
                    subscription_id := item.subscription_id,
                    user_id := some u, score := score, summary := summary }])

end Analyst

/-! ## Dispatcher service (`dispatcher/main.py`) -/

namespace Dispatcher

/-- A row of `pending_dispatch`. -/
structure PendingRow where
  user_id : Option String
  subscription_id : Option Int
  insight_id : Option Int
  score : Rat
  created_at : Int
deriving DecidableEq, Repr

structure SentDigest where
  user_id : Option String
  subscription_id : Option Int
  sent_at : Int
deriving DecidableEq, Repr

structure DispatcherDB where
  pending_dispatch : List PendingRow
  user_contacts : List (String × String)
  sent_digests : List SentDigest
deriving DecidableEq, Repr

/-- Intake consumer body `process_dispatch_payload`: append the inbound
notification to `pending_dispatch` verbatim. -/
def process_dispatch_payload (now : Int) (payload : Analyst.NotifyMsg)
    (db : DispatcherDB) : DispatcherDB :=
  { db with pending_dispatch := db.pending_dispatch ++
      [{ user_id := payload.user_id, subscription_id := payload.subscription_id,
         insight_id := some payload.insight_id, score := payload.score,
         created_at := now }] }

/-- `GROUP BY user_id, subscription_id`: the distinct keys, in first
occurrence order. -/
def groupKeys (rows : List PendingRow) : List (Option String × Option Int) :=
  rows.foldl (fun acc row =>
    if acc.contains (row.user_id, row.subscription_id) then acc
    else acc ++ [(row.user_id, row.subscription_id)]) []

/-- Stable descending insertion by score (`ORDER BY score DESC`). -/
def insertByScore (x : Option Int × Rat) :
    List (Option Int × Rat) → List (Option Int × Rat)
  | [] => [x]
  | y :: ys => if y.2 < x.2 then x :: y :: ys else y :: insertByScore x ys

def sortByScoreDesc : List (Option Int × Rat) → List (Option Int × Rat)
  | [] => []
  | x :: xs => insertByScore x (sortByScoreDesc xs)

/-- One digest line: `f"[{itype}] (score {s:.2f})\n{summ}"`. -/
def renderEntry (e : Option String × Rat × Option String) : String :=
  "[" ++ pyOptStrRepr e.1 ++ "] (score " ++ fmt2 e.2.1 ++ ")\n" ++ pyOptStrRepr e.2.2

/-- The per-group digest produced by one batcher run. -/
structure DigestGroup where
  user_id : Option String
  subscription_id : Option Int
  entries : List (Option String × Rat × Option String)
  subject : Option String
  body : Option String
  email_to : Option String
  email_sent : Bool
deriving DecidableEq, Repr

/-- The body of `send_weekly_digest` for one group key. -/
def digestForGroup (emailOk : String → Bool) (analystDb : Analyst.AnalystDB)
    (db : DispatcherDB) (key : Option String × Option Int) : DigestGroup :=
  let rows := db.pending_dispatch.filter
    (fun row => row.user_id = key.1 ∧ row.subscription_id = key.2)
  let top := (sortByScoreDesc (rows.map (fun row => (row.insight_id, row.score)))).take 10
  let entries := top.filterMap (fun p =>
    match p.1 with
    | some i => (analystDb.insights.find? (fun ins => ins.id = i)).map
        (fun ins => (ins.insight_type, p.2, ins.summary))
    | none => none)
  if entries = [] then
    { user_id := key.1, subscription_id := key.2, entries := entries,
      subject := none, body := none, email_to := none, email_sent := false }
  else
    let subject := "Weekly Digest: Top Insights for Subscription " ++ pyOptIntRepr key.2
    let body := "Here are your top " ++ toString entries.length ++
      " insights this week:\n\n" ++ String.intercalate "\n\n" (entries.map renderEntry)
    let contact := match key.1 with
      | some u => (db.user_contacts.find? (fun c => c.1 = u)).map (·.2)
      | none => none
    { user_id := key.1, subscription_id := key.2, entries := entries,
      subject := some subject, body := some body, email_to := contact,
      email_sent := match contact with | some addr => emailOk addr | none => false }

/-- `send_weekly_digest`: group pending rows, compose and (best-effort)
send one digest per group, record a `sent_digests` marker per group
regardless of send outcome, then `DELETE FROM pending_dispatch`
globally.  `emailOk` is the SMTP oracle; its result is ignored by the
control flow exactly as the code ignores `send_email_with_retries`'s
return value. -/
def send_weekly_digest (emailOk : String → Bool)
    (analystDb : Analyst.AnalystDB) (now : Int) (db : DispatcherDB) :
    DispatcherDB × List DigestGroup :=
  let keys := groupKeys db.pending_dispatch
  let results := keys.map (digestForGroup emailOk analystDb db)
  let sent := keys.map (fun key => SentDigest.mk key.1 key.2 now)
  ({ db with pending_dispatch := [],
             sent_digests := db.sent_digests ++ sent }, results)

end Dispatcher

/-! ## Credential validator (`common/descope_auth.py`)

`jwt.decode` (signature verification by python-jose) is embedded as the
`sigOk` bit of the token; the claim checks written out in
`validate_delegated_jwt` are embedded line by line.  (python-jose also
applies its own expiry check inside `decode`, with the same strict
`exp < now` comparison, so the boundary behaviour at `exp = now` is the
same with or without that library detail — only the 401 detail string
differs for `exp < now`.) -/

namespace Auth

inductive AuthError
  | invalidHeader
  | missingKid
  | noJwk
  | invalidToken
  | expired
  | notYetValid
  | invalidAudience
  | azpMismatch
  | insufficientScope
  | replayDetected
deriving DecidableEq, Repr

/-- HTTP status of each failure (`401 UNAUTHORIZED` / `403 FORBIDDEN`). -/
def AuthError.status : AuthError → Nat
  | .azpMismatch => 403
  | .insufficientScope => 403
  | .replayDetected => 403
  | _ => 401

/-- The `aud` claim may be absent, a single string, or a list. -/
inductive AudClaim
  | missing
  | one (s : String)
  | many (l : List String)
deriving DecidableEq, Repr

/-- `aud if isinstance(aud, list) else [aud] if aud else []`. -/
def audList : AudClaim → List String
  | .missing => []
  | .one s => if s = "" then [] else [s]
  | .many l => l

structure Claims where
  exp : Option Int
  iat : Option Int
  aud : AudClaim
  azp : Option String
  scope : Option String
  scp : Option String
  scopes : Option String
  jti : Option String
deriving DecidableEq, Repr

/-- A presented bearer token, with the outcome of the external
cryptographic steps (header parse, signature check) as input bits. -/
structure Token where
  headerOk : Bool
  kid : Option String
  sigOk : Bool
  claims : Claims
deriving DecidableEq, Repr

/-- The granted-scope string:
`claims.get("scope") or claims.get("scp") or claims.get("scopes") or ""`. -/
def claimScope (c : Claims) : String :=
  pyOrStr c.scope (pyOrStr c.scp (pyOrStr c.scopes ""))

/-- `claims.get("exp") is None or claims["exp"] < now` — note the
strict `<`. -/
def expCheckFails (exp : Option Int) (now : Int) : Bool :=
  match exp with
  | none => true
  | some e => e < now

/-- `claims.get("iat") and claims["iat"] > now + 60` — a falsy `iat`
(absent or `0`) skips the check. -/
def iatCheckFails (iat : Option Int) (now : Int) : Bool :=
  match iat with
  | none => false
  | some i => i ≠ 0 ∧ now + 60 < i

/-- The first failing check of `validate_delegated_jwt` before the
`jti` step, in source order: header parse, kid lookup, signature,
expiry, `iat` skew, audience, azp, scopes.  `none` means all checks
passed. -/
def claimsError (jwksKids : List String) (tok : Token)
    (expected_aud : Option String) (required_scopes : Option (List String))
    (expected_azp : Option String) (now : Int) : Option AuthError :=
  if ¬ tok.headerOk then some .invalidHeader
  else match tok.kid with
  | none => some .missingKid
  | some k =>
    if ¬ jwksKids.contains k then some .noJwk
    else if ¬ tok.sigOk then some .invalidToken
    else if expCheckFails tok.claims.exp now then some .expired
    else if iatCheckFails tok.claims.iat now then some .notYetValid
    else
      let audOk : Bool := match expected_aud with
        | some a => (audList tok.claims.aud).contains a
        | none => true
      if ¬ audOk then some .invalidAudience
      else
        let azpOk : Bool := match expected_azp with
          | some z => tok.claims.azp = some z
          | none => true
        if ¬ azpOk then some .azpMismatch
        else
          let scopeOk : Bool := match required_scopes with
            | some rs => rs.all (fun s => (pySplitWs (claimScope tok.claims)).contains s)
            | none => true
          if ¬ scopeOk then some .insufficientScope
          else none

/-- Everything `validate_delegated_jwt` does before the `jti` step: on
success the verified claim set is exactly the token's claims. -/
def checkClaimsStage (jwksKids : List String) (tok : Token)
    (expected_aud : Option String) (required_scopes : Option (List String))
    (expected_azp : Option String) (now : Int) : Except AuthError Claims :=
  match claimsError jwksKids tok expected_aud required_scopes expected_azp now with
  | some e => .error e
  | none => .ok tok.claims

/-- The replay-suppression store: the shared Redis keyspace, or the
in-process fallback dictionary.  Entries pair a key with its absolute
expiry time. -/
inductive JtiStore
  | redisStore (entries : List (String × Int))
  | localStore (entries : List (String × Int))
deriving DecidableEq, Repr

/-- `_record_and_check_jti`.  Shared-store mode:
`SET veritas:jti:<jti> 1 EX ttl NX` — fails iff the key is still live.
Fallback mode: sweep entries whose recorded expiry is `< now`, then
membership test and insert with expiry `now + ttl`.  A falsy `jti`
(absent or `""`) is not checked at all. -/
def recordAndCheckJti (ttl now : Int) (jti : Option String)
    (st : JtiStore) : Except AuthError JtiStore :=
  if ¬ pyTruthyStr jti then .ok st
  else
    let j := jti.getD ""
    match st with
    | .redisStore es =>
      let live := es.filter (fun p => now < p.2)
      if live.any (fun p => p.1 = "veritas:jti:" ++ j) then .error .replayDetected
      else .ok (.redisStore (("veritas:jti:" ++ j, now + ttl) :: live))
    | .localStore es =>
      let swept := es.filter (fun p => ¬ p.2 < now)
      if swept.any (fun p => p.1 = j) then .error .replayDetected
      else .ok (.localStore ((j, now + ttl) :: swept))

/-- `validate_delegated_jwt`: the claim checks followed by replay
suppression; on success returns the claims and the updated store. -/
def validate_delegated_jwt (jwksKids : List String) (tok : Token)
    (expected_aud : Option String) (required_scopes : Option (List String))
    (expected_azp : Option String) (now ttl : Int) (st : JtiStore) :
    Except AuthError (Claims × JtiStore) :=
  match checkClaimsStage jwksKids tok expected_aud required_scopes expected_azp now with
  | .error e => .error e
  | .ok c =>
    match recordAndCheckJti ttl now c.jti st with
    | .error e => .error e
    | .ok st' => .ok (c, st')

end Auth

/-! ## Concierge issuer (`concierge/main.py`)

The Descope SDK (`validate_session`, `exchange_access_key`) is external;
both become oracles.  The embedding records the exact arguments the
`/delegate` handler passes to the exchange, which is where the claim
about scope handling is decided. -/

namespace Concierge

/-- The alias→audience table built from the `AUD_*` environment
variables. -/
structure AudMap where
  scout : Option String
  analyst : Option String
  dispatcher : Option String
  moderator : Option String
deriving DecidableEq, Repr

def AudMap.lookup (m : AudMap) (k : String) : Option String :=
  if k = "scout" then m.scout
  else if k = "analyst" then m.analyst
  else if k = "dispatcher" then m.dispatcher
  else if k = "moderator" then m.moderator
  else none

structure DelegateRequest where
  target : String
  scopes : List String
  expires_in : Option Int
  subscription_id : Option Int
deriving DecidableEq, Repr

/-- The `custom_claims` dict handed to `AccessKeyLoginOptions`. -/
structure CustomClaims where
  scope : Option String
  aud : String
deriving DecidableEq, Repr

/-- An SDK exchange response.  The handler inspects only the
`sessionToken` and `jwt` fields (in its moderator-token caching branch);
everything else is passed back to the caller untouched. -/
structure SdkResp where
  sessionToken : Option String
  jwt : Option String
deriving DecidableEq, Repr

inductive DelegateError
  | missingAuthHeader
  | emptySession
  | invalidSession (msg : String)
  | invalidAudienceEmpty
  | accessKeyMissing
  | invalidAudience (aud : String)
  | delegationFailed (msg : String)
deriving DecidableEq, Repr

def DelegateError.status : DelegateError → Nat
  | .missingAuthHeader => 401
  | .emptySession => 401
  | .invalidSession _ => 401
  | .invalidAudienceEmpty => 400
  | .accessKeyMissing => 500
  | .invalidAudience _ => 400
  | .delegationFailed _ => 500

/-- The recorded `exchange_access_key` invocation. -/
structure ExchangeCall where
  audience : String
  custom_claims : CustomClaims
deriving DecidableEq, Repr

structure DelegateOutcome where
  result : Except DelegateError SdkResp
  exchangeCall : Option ExchangeCall
deriving Repr

/-- `"audience" in msg.lower()`. -/
def mentionsAudience (msg : String) : Bool :=
  (msg.toLower.splitOn "audience").length > 1

/-- Audience resolution: a truthy alias entry wins, otherwise the target
is taken as a literal audience string. -/
def resolveAudience (audMap : AudMap) (target : String) : String :=
  match AudMap.lookup audMap target with
  | some v => if v = "" then target else v
  | none => target

/-- The message of the `NameError` raised at `r = await get_redis()`:
`get_redis` is neither defined nor imported anywhere in
`concierge/main.py`, so reaching that line raises inside the handler's
`try` block.  CPython renders the message with quotes around the name;
only its content matters here.  Since this fixed message does not
contain the substring `"audience"`, the handler's
`"audience" in msg.lower()` test is statically false for it, and the
`except` branch maps it to the generic 500 — the model resolves that
constant test in place. -/
def getRedisNameError : String := "NameError: name get_redis is not defined"

/-- The `/delegate` handler.  `sessionOk` is the SDK session validation
oracle, `exchange` the SDK access-key exchange oracle (`.error msg`
models a raised exception with message `msg`); `session_token` is the
bearer token after the header split and `strip()` (`none` = missing or
malformed header).  There is no comparison of the requested scopes
against any entitlement anywhere on this path: the scopes are joined
and placed in `custom_claims` verbatim.  The audience guard rejects a
whitespace-only audience (`audience.strip() == ""`).  After a
successful exchange, when `body.subscription_id` is truthy and the
requested target is `"moderator"` and the response carries a truthy
`sessionToken` or `jwt`, the caching branch calls the undefined
`get_redis`: the resulting `NameError` is caught by the generic
`except` and surfaces as a 500, replacing the successful response. -/
def delegate (audMap : AudMap) (accessKeyPresent : Bool)
    (sessionOk : String → Except String Unit)
    (exchange : String → CustomClaims → Except String SdkResp)
    (session_token : Option String) (body : DelegateRequest) : DelegateOutcome :=
  match session_token with
  | none => ⟨.error .missingAuthHeader, none⟩
  | some tokenStr =>
    if tokenStr = "" then ⟨.error .emptySession, none⟩
    else match sessionOk tokenStr with
    | .error m => ⟨.error (.invalidSession m), none⟩
    | .ok _ =>
      let audience := resolveAudience audMap body.target
      if pyStrip audience = "" then ⟨.error .invalidAudienceEmpty, none⟩
      else if ¬ accessKeyPresent then ⟨.error .accessKeyMissing, none⟩
      else
        let cc : CustomClaims :=
          { scope := if body.scopes = [] then none
                     else some (String.intercalate " " body.scopes),
            aud := audience }
        let call : ExchangeCall := ⟨audience, cc⟩
        match exchange audience cc with
        | .ok resp =>
          if pyTruthyInt body.subscription_id ∧ body.target = "moderator" then
            if pyOrStr resp.sessionToken (pyOrStr resp.jwt "") ≠ "" then
              ⟨.error (.delegationFailed getRedisNameError), some call⟩
            else ⟨.ok resp, some call⟩
          else ⟨.ok resp, some call⟩
        | .error m =>
          if mentionsAudience m then ⟨.error (.invalidAudience audience), some call⟩
          else ⟨.error (.delegationFailed m), some call⟩

end Concierge

/-! ## Composed pipeline state

Scout, moderator and analyst share only Redis (and the analyst reads the
scout DB file).  `scout/main.py` contains no call into the moderator
service and no reference to its database: the only downstream link of a
poll cycle is the `LPUSH` onto `QUEUE_KEY`.  The composed cycle below
therefore carries the moderator state through unchanged — that is the
faithful reading of the source, not a simplification. -/

structure SysState where
  scout : Scout.ScoutDB
  moderator : Moderator.ModDB
  redis : Redis
deriving DecidableEq, Repr

/-- One scout poll cycle at system level. -/
def sysScoutCycle (subId : Int) (source : String) (now : Int)
    (entries : List Scout.Entry) (s : SysState) : SysState :=
  let st := Scout.fetch_and_store_once subId source now entries (s.scout, s.redis)
  { scout := st.1, moderator := s.moderator, redis := st.2 }

/-- The all-empty system state. -/
def SysState.empty : SysState :=
  ⟨Scout.ScoutDB.empty, Moderator.ModDB.empty, Redis.empty⟩

/-! ## Spec reference definitions and concrete fixtures -/

/-- The spec's wording of the fingerprint: "SHA-256 of the string B
followed by `'|'` followed by U" (reference definition for the
refinement comparison with `Scout.fingerprint`). -/
def fingerprintSpec (body url : String) : String :=
  Sha256.hex (Sha256.sha256 (utf8 (body ++ "|" ++ url)))

/-- An analyst judgment attempt that yields no usable parse: timeout,
raised exception, unparseable output, or empty output. -/
def failedAnalystAttempt : Analyst.LLMAttempt → Prop
  | .timeout => True
  | .err _ => True
  | .ok (.parsed _ _) => False
  | .ok (.unparseable _) => True
  | .ok .noText => True

/-- A concrete feed entry. -/
def entry1 : Scout.Entry :=
  { summary := some "hello world", description := none, title := some "T",
    link := some "http://x/1", entry_id := some "id1" }

/-- The system after one scout poll cycle over `entry1` from the empty
state. -/
def sysAfterScout : SysState := sysScoutCycle 1 "arxiv" 100 [entry1] SysState.empty

/-- The moderator then processes the new item with every judgment
attempt timing out, under the default queue configuration. -/
def c2ModRun : Moderator.ModDB × Redis :=
  Moderator.process_item Env.default (fun _ => Moderator.ModAttempt.timeout) 2 200
    (Moderator.ofQueueMsg ⟨1, some 1⟩) (sysAfterScout.moderator, sysAfterScout.redis)

/-- A token that is valid in every respect, whose `exp` equals the
verification time used below. -/
def tok8 : Auth.Token :=
  { headerOk := true, kid := some "k1", sigOk := true,
    claims := { exp := some 100, iat := none, aud := Auth.AudClaim.missing, azp := none,
                scope := none, scp := none, scopes := none, jti := none } }

/-- A fully valid token carrying `jti = "j1"`. -/
def tok4 : Auth.Token :=
  { headerOk := true, kid := some "k1", sigOk := true,
    claims := { exp := some 1000, iat := none, aud := Auth.AudClaim.missing, azp := none,
                scope := none, scp := none, scopes := none, jti := some "j1" } }

/-- A concrete alias table with only the scout audience configured. -/
def audMap0 : Concierge.AudMap := ⟨some "aud-scout", none, none, none⟩

/-- A concrete delegate request asking for a scope far beyond any data
read entitlement. -/
def req3 : Concierge.DelegateRequest :=
  ⟨"scout", ["data:admin:everything"], some 300, none⟩

/-- Analyst store holding the two insights of the digest scenario. -/
def adb7 : Analyst.AnalystDB :=
  { insights :=
      [ { id := 1, insight_type := some "novel_finding", score := mkRat 9 10, summary := some "s1",
          evidence := [], recommended_action := some "a1", raw_response := none,
          subscription_id := some 5, user_id := some "u1", created_at := 10 },
        { id := 2, insight_type := some "contrarian_signal", score := mkRat 3 10, summary := some "s2",
          evidence := [], recommended_action := some "a2", raw_response := none,
          subscription_id := some 5, user_id := some "u1", created_at := 11 } ],
    nextInsightId := 3 }

/-- Dispatcher store with the two pending notifications (the 0.3 one
arrived first) for the same owner and subscription. -/
def ddb7 : Dispatcher.DispatcherDB :=
  { pending_dispatch :=
      [ { user_id := some "u1", subscription_id := some 5, insight_id := some 2,
          score := mkRat 3 10, created_at := 20 },
        { user_id := some "u1", subscription_id := some 5, insight_id := some 1,
          score := mkRat 9 10, created_at := 21 } ],
    user_contacts := [("u1", "u1@example.com")],
    sent_digests := [] }

/-- The digest expected for `ddb7`/`adb7` when every SMTP send fails:
composed, 0.90 entry first, send attempted and unsuccessful. -/
def digest7 : Dispatcher.DigestGroup :=
  { user_id := some "u1", subscription_id := some 5,
    entries := [(some "novel_finding", mkRat 9 10, some "s1"),
                (some "contrarian_signal", mkRat 3 10, some "s2")],
    subject := some "Weekly Digest: Top Insights for Subscription 5",
    body := some ("Here are your top 2 insights this week:\n\n[novel_finding] (score 0.90)\ns1" ++
                  "\n\n[contrarian_signal] (score 0.30)\ns2"),
    email_to := some "u1@example.com", email_sent := false }

/-- A stored item row. -/
def item6 : Scout.Item :=
  { id := 1, subscription_id := some 1, source := "arxiv", source_id := "id1",
    title := "T", content := "hello world", url := "http://x/1",
    fetch_time := 100, fingerprint := "fp1" }

/-- A subscription row of owner `u1`. -/
def sub6 : Scout.Subscription := ⟨1, "u1", "arxiv", "http://feed", 5⟩

/-- Scout DB with one subscription of owner `u1` and one fetched item. -/
def scoutDb6 : Scout.ScoutDB :=
  { subscriptions := [sub6], items := [item6], nextSubId := 2, nextItemId := 2 }

/-! # Shared helper lemmas -/

/-- `List.foldl` preserves an invariant. -/
theorem foldlPreserves {α σ : Type _} (P : σ → Prop) (f : σ → α → σ)
    (h : ∀ s a, P s → P (f s a)) : ∀ (l : List α) (s : σ), P s → P (List.foldl f s l)
  | [], _, hs => hs
  | a :: l, s, hs => foldlPreserves P f h l (f s a) (h s a hs)

/-- Pushing onto a queue prepends to exactly that queue. -/
theorem rget_lpush_self (r : Redis) (k : String) (m : QueueMsg) :
    rget (lpush r k m) k = m :: rget r k := by
  simp [rget, lpush]

/-- One `processEntry` step keeps every fingerprint's row count at most
one. -/
theorem processEntry_count_le (subId : Int) (source : String) (now : Int)
    (st : Scout.ScoutDB × Redis) (e : Scout.Entry)
    (h : ∀ v, st.1.items.countP (fun it => it.fingerprint = v) ≤ 1) :
    ∀ v, (Scout.processEntry subId source now st e).1.items.countP
        (fun it => it.fingerprint = v) ≤ 1 := by
  intro v
  by_cases hany : st.1.items.any (fun it => it.fingerprint = Scout.entryFp e) = true
  · simp only [Scout.processEntry, hany, if_true]
    exact h v
  · have hany' := eq_false_of_ne_true hany
    simp only [Scout.processEntry, hany', Bool.false_eq_true, if_false]
    rw [List.countP_append]
    by_cases hv : Scout.entryFp e = v
    · have h0 : st.1.items.countP (fun it => it.fingerprint = v) = 0 := by
        rw [List.countP_eq_zero]
        intro a ha
        have := List.any_eq_false.mp hany' a ha
        subst hv
        simpa using this
      rw [h0]
      simp [List.countP_cons, hv]
    · have h1 : List.countP (fun it => decide (it.fingerprint = v))
          [({ id := st.1.nextItemId, subscription_id := some subId, source := source,
              source_id := Scout.entrySid e, title := e.title.getD "",
              content := Scout.entryContent e, url := Scout.entryLink e,
              fetch_time := now, fingerprint := Scout.entryFp e } : Scout.Item)] = 0 := by
        simp [List.countP_cons, hv]
      rw [h1]
      simpa using h v

/-- All-failing moderation attempts leave the fail-closed default. -/
theorem modRunRetries_allFail (oracle : Nat → Moderator.ModAttempt) :
    ∀ (fuel i : Nat) (reason : String),
      (∀ k, i ≤ k → k < i + fuel → ∀ resp, oracle k ≠ Moderator.ModAttempt.ok resp) →
      ∃ rsn, Moderator.runRetries oracle i fuel reason = (false, [], rsn, "")
  | 0, _, reason, _ => ⟨reason, rfl⟩
  | fuel + 1, i, reason, h => by
    have hnext : ∀ k, i + 1 ≤ k → k < (i + 1) + fuel →
        ∀ resp, oracle k ≠ Moderator.ModAttempt.ok resp := by
      intro k hk1 hk2 resp
      exact h k (by omega) (by omega) resp
    cases ho : oracle i with
    | ok resp => exact absurd ho (h i (Nat.le_refl i) (by omega) resp)
    | timeout =>
      obtain ⟨rsn, hr⟩ := modRunRetries_allFail oracle fuel (i + 1)
        ("timeout_attempt_" ++ toString (i + 1)) hnext
      exact ⟨rsn, by rw [Moderator.runRetries, ho]; exact hr⟩
    | err m =>
      obtain ⟨rsn, hr⟩ := modRunRetries_allFail oracle fuel (i + 1) m hnext
      exact ⟨rsn, by rw [Moderator.runRetries, ho]; exact hr⟩

/-- All-failing analyst attempts produce no parse. -/
theorem analystRunRetries_noParse (oracle : Nat → Analyst.LLMAttempt) :
    ∀ (fuel i : Nat),
      (∀ k, i ≤ k → k < i + fuel → failedAnalystAttempt (oracle k)) →
      (Analyst.runRetries oracle i fuel).1 = none
  | 0, _, _ => rfl
  | fuel + 1, i, h => by
    have hnext : ∀ k, i + 1 ≤ k → k < (i + 1) + fuel → failedAnalystAttempt (oracle k) :=
      fun k hk1 hk2 => h k (by omega) (by omega)
    cases ho : oracle i with
    | ok resp =>
      have hf : failedAnalystAttempt (Analyst.LLMAttempt.ok resp) :=
        ho ▸ h i (Nat.le_refl i) (by omega)
      cases resp with
      | parsed p raw => exact absurd hf (by simp [failedAnalystAttempt])
      | unparseable raw => rw [Analyst.runRetries, ho]; rfl
      | noText => rw [Analyst.runRetries, ho]; rfl
    | timeout =>
      rw [Analyst.runRetries, ho]
      exact analystRunRetries_noParse oracle fuel (i + 1) hnext
    | err m =>
      rw [Analyst.runRetries, ho]
      exact analystRunRetries_noParse oracle fuel (i + 1) hnext

/-- The pre-`jti` stage returns exactly the token's claims on success. -/
theorem checkClaimsStage_ok_claims {jwks : List String} {tok : Auth.Token}
    {ea : Option String} {rs : Option (List String)} {az : Option String}
    {now : Int} {c : Auth.Claims}
    (h : Auth.checkClaimsStage jwks tok ea rs az now = .ok c) : c = tok.claims := by
  rw [Auth.checkClaimsStage] at h
  cases hce : Auth.claimsError jwks tok ea rs az now with
  | some e => rw [hce] at h; cases h
  | none => rw [hce] at h; cases h; rfl

/-- Replay suppression can only fail with `replayDetected`. -/
theorem recordJti_errors_replay (ttl now : Int) (j : Option String)
    (st : Auth.JtiStore) (e : Auth.AuthError)
    (h : Auth.recordAndCheckJti ttl now j st = .error e) : e = .replayDetected := by
  rw [Auth.recordAndCheckJti] at h
  split at h
  · cases h
  · split at h <;> dsimp only at h <;> split at h
    · cases h; rfl
    · cases h
    · cases h; rfl
    · cases h

/-- The expiry guard fires iff `exp` is absent or strictly before `now`. -/
theorem expCheckFails_iff (exp : Option Int) (now : Int) :
    Auth.expCheckFails exp now = true ↔ exp = none ∨ ∃ e, exp = some e ∧ e < now := by
  cases exp <;> simp [Auth.expCheckFails]

/-- The `iat` guard fires iff `iat` is present, truthy and more than 60
seconds in the future. -/
theorem iatCheckFails_iff (iat : Option Int) (now : Int) :
    Auth.iatCheckFails iat now = true ↔ ∃ i, iat = some i ∧ i ≠ 0 ∧ now + 60 < i := by
  cases iat <;> simp [Auth.iatCheckFails]

/-- Membership through the descending insertion. -/
theorem mem_insertByScore (x y : Option Int × Rat) (l : List (Option Int × Rat)) :
    y ∈ Dispatcher.insertByScore x l ↔ y = x ∨ y ∈ l := by
  induction l with
  | nil => simp [Dispatcher.insertByScore]
  | cons a l ih =>
    rw [Dispatcher.insertByScore]
    by_cases h : a.2 < x.2
    · rw [if_pos h]
      simp [List.mem_cons]
    · rw [if_neg h]
      simp [List.mem_cons, ih]
      tauto

/-- Descending insertion preserves descending order. -/
theorem pairwise_insertByScore (x : Option Int × Rat) (l : List (Option Int × Rat))
    (h : List.Pairwise (fun a b => b.2 ≤ a.2) l) :
    List.Pairwise (fun a b => b.2 ≤ a.2) (Dispatcher.insertByScore x l) := by
  induction l with
  | nil => simp [Dispatcher.insertByScore]
  | cons a l ih =>
    rw [List.pairwise_cons] at h
    obtain ⟨ha, hl⟩ := h
    rw [Dispatcher.insertByScore]
    by_cases hx : a.2 < x.2
    · rw [if_pos hx]
      refine List.pairwise_cons.mpr ⟨?_, List.pairwise_cons.mpr ⟨ha, hl⟩⟩
      intro z hz
      rcases List.mem_cons.mp hz with rfl | hz'
      · exact le_of_lt hx
      · exact le_trans (ha z hz') (le_of_lt hx)
    · rw [if_neg hx]
      refine List.pairwise_cons.mpr ⟨?_, ih hl⟩
      intro z hz
      rcases (mem_insertByScore x z l).mp hz with rfl | hz'
      · exact le_of_not_lt hx
      · exact ha z hz'

/-- The insertion sort emits scores in descending order. -/
theorem pairwise_sortByScoreDesc (l : List (Option Int × Rat)) :
    List.Pairwise (fun a b => b.2 ≤ a.2) (Dispatcher.sortByScoreDesc l) := by
  induction l with
  | nil => exact List.Pairwise.nil
  | cons x l ih => exact pairwise_insertByScore x _ ih

/-- Every digest group's entry list is in descending score order. -/
theorem digestForGroup_entries_sorted (emailOk : String → Bool)
    (analystDb : Analyst.AnalystDB) (db : Dispatcher.DispatcherDB)
    (key : Option String × Option Int) :
    List.Pairwise (fun a b => b.2.1 ≤ a.2.1)
      (Dispatcher.digestForGroup emailOk analystDb db key).entries := by
  have hfm : ∀ (l : List (Option Int × Rat)), List.Pairwise (fun a b => b.2 ≤ a.2) l →
      List.Pairwise (fun a b => b.2.1 ≤ a.2.1) (l.filterMap (fun p =>
        match p.1 with
        | some i => (analystDb.insights.find? (fun ins => ins.id = i)).map
            (fun ins => (ins.insight_type, p.2, ins.summary))
        | none => none)) := by
    intro l hl
    rw [List.pairwise_filterMap]
    refine hl.imp ?_
    intro p q hpq b hb b' hb'
    have hb2 : b.2.1 = p.2 := by
      cases hp : p.1 with
      | none => rw [hp] at hb; cases hb
      | some i =>
        rw [hp] at hb
        rcases Option.mem_def.mp hb with h'
        rcases Option.map_eq_some'.mp h' with ⟨ins, hins, rfl⟩
        rfl
    have hb2' : b'.2.1 = q.2 := by
      cases hq : q.1 with
      | none => rw [hq] at hb'; cases hb'
      | some i =>
        rw [hq] at hb'
        rcases Option.mem_def.mp hb' with h'
        rcases Option.map_eq_some'.mp h' with ⟨ins, hins, rfl⟩
        rfl
    rw [hb2, hb2']
    exact hpq
  have hsorted := (pairwise_sortByScoreDesc
    ((db.pending_dispatch.filter
      (fun row => row.user_id = key.1 ∧ row.subscription_id = key.2)).map
      (fun row => (row.insight_id, row.score)))).sublist (List.take_sublist 10 _)
  have hmain := hfm _ hsorted
  rw [Dispatcher.digestForGroup]
  dsimp only
  split_ifs <;> exact hmain

/-! # Claim theorems -/

/-- Claim C1 (counterexample): a full pipeline run from the empty state
in which the poller inserts a `ContentItem` row and enqueues it while
the moderation log is empty and the moderator's input queue never
received anything — so the row was *not* created after a moderation
approval. -/
theorem scout_insert_no_moderation_cex :
    sysAfterScout.scout.items.length = 1 ∧
    sysAfterScout.moderator.moderation_logs = [] ∧
    rget sysAfterScout.redis (Moderator.MODERATOR_QUEUE Env.default) = [] ∧
    rget sysAfterScout.redis Scout.QUEUE_KEY = [{ item_id := 1, subscription_id := some 1 }] :=
  ⟨rfl, rfl, rfl, rfl⟩

/-- Claim C1 (amended): the Ingestion Poller persists and enqueues every
new entry *without any moderation interaction* — a poll cycle never
touches the moderator's state, and whether the row is inserted depends
only on fingerprint presence, never on a moderation decision; the new
row is pushed onto scout's queue unconditionally. -/
theorem scout_persist_enqueue_unconditional (subId : Int) (source : String)
    (now : Int) (e : Scout.Entry) (s : SysState) :
    (sysScoutCycle subId source now [e] s).moderator = s.moderator ∧
    ((sysScoutCycle subId source now [e] s).scout.items.length =
      if s.scout.items.any (fun it => it.fingerprint = Scout.entryFp e)
      then s.scout.items.length else s.scout.items.length + 1) ∧
    (rget (sysScoutCycle subId source now [e] s).redis Scout.QUEUE_KEY =
      if s.scout.items.any (fun it => it.fingerprint = Scout.entryFp e)
      then rget s.redis Scout.QUEUE_KEY
      else ({ item_id := s.scout.nextItemId, subscription_id := some subId } : QueueMsg)
             :: rget s.redis Scout.QUEUE_KEY) := by
  refine ⟨rfl, ?_, ?_⟩ <;>
  · by_cases h : s.scout.items.any (fun it => it.fingerprint = Scout.entryFp e) = true
    · simp [sysScoutCycle, Scout.fetch_and_store_once, Scout.processEntry, h]
    · have h' := eq_false_of_ne_true h
      simp [sysScoutCycle, Scout.fetch_and_store_once, Scout.processEntry, h', rget_lpush_self]

/-- Claim C2 (counterexample): under the default queue configuration the
moderator records `allowed = false` for the item (every judgment attempt
timed out), yet the very same item sits in the Insight Extractor's input
queue, because the poller pushed it there directly. -/
theorem disallowed_in_extractor_queue_cex :
    c2ModRun.1.moderation_logs.map (fun l => l.decision_allowed) = [false] ∧
    rget c2ModRun.2 (Analyst.QUEUE_KEY Env.default) = [{ item_id := 1, subscription_id := some 1 }] :=
  ⟨rfl, rfl⟩

/-- Claim C2 (amended): when every retry attempt of the external
moderation judgment call fails or times out, the Moderation Gate
persists a ModerationRecord with `allowed = false` (fail-closed) and
forwards nothing — its Redis state is untouched, so in particular
nothing is pushed to its output queue.  (The stronger original reading —
that a disallowed item never appears in the extractor's input queue — is
refuted by the counterexample: with the default queue keys the poller
feeds the extractor's queue directly.) -/
theorem moderator_fail_closed (env : Env) (oracle : Nat → Moderator.ModAttempt)
    (retries : Nat) (now : Int) (obj : Moderator.ModMsg)
    (st : Moderator.ModDB × Redis)
    (hfail : ∀ k, k < retries → ∀ resp, oracle k ≠ Moderator.ModAttempt.ok resp) :
    ∃ log : Moderator.ModLog,
      (Moderator.process_item env oracle retries now obj st).1.moderation_logs
        = st.1.moderation_logs ++ [log] ∧
      log.decision_allowed = false ∧
      (Moderator.process_item env oracle retries now obj st).2 = st.2 := by
  obtain ⟨rsn, hr⟩ := modRunRetries_allFail oracle retries 0 ""
    (fun k _ hk resp => hfail k (by omega) resp)
  refine ⟨({
      id := st.1.nextLogId, subscription_id := obj.subscription_id, user_id := none,
      item_title := obj.title, item_url := obj.url,
      content_hash := Moderator.compute_content_hash obj.title obj.content obj.url,
      content_snippet := obj.content.take 2000, requested_at := now,
      decision_allowed := false, categories := [], reason := rsn,
      model_response := "" } : Moderator.ModLog), ?_, rfl, ?_⟩
  · simp [Moderator.process_item, hr]
  · simp [Moderator.process_item, hr]

/-- Claim C2 (witness): the fail-closed theorem applied to a concrete
all-timeout oracle. -/
theorem moderator_fail_closed_witness :
    (∀ k, k < 2 → ∀ resp,
      (fun _ => Moderator.ModAttempt.timeout) k ≠ Moderator.ModAttempt.ok resp) ∧
    (∃ log : Moderator.ModLog,
      (Moderator.process_item Env.default (fun _ => Moderator.ModAttempt.timeout) 2 200
        (Moderator.ofQueueMsg ⟨1, some 1⟩)
        (Moderator.ModDB.empty, Redis.empty)).1.moderation_logs
        = (Moderator.ModDB.empty).moderation_logs ++ [log] ∧
      log.decision_allowed = false ∧
      (Moderator.process_item Env.default (fun _ => Moderator.ModAttempt.timeout) 2 200
        (Moderator.ofQueueMsg ⟨1, some 1⟩) (Moderator.ModDB.empty, Redis.empty)).2
        = ((Moderator.ModDB.empty, Redis.empty) : Moderator.ModDB × Redis).2) :=
  ⟨fun _ _ resp h => Moderator.ModAttempt.noConfusion h,
   moderator_fail_closed Env.default (fun _ => Moderator.ModAttempt.timeout) 2 200
     (Moderator.ofQueueMsg ⟨1, some 1⟩) (Moderator.ModDB.empty, Redis.empty)
     (fun _ _ resp h => Moderator.ModAttempt.noConfusion h)⟩

/-- Claim C3 (counterexample): a delegation request whose scope set is
strictly broader than a data-read entitlement succeeds and mints a
credential carrying exactly that scope — the issuer path contains no
`ScopeEscalation` rejection at all. -/
theorem delegate_scope_escalation_cex :
    ¬ (["data:admin:everything"] ⊆ ["data:read:arxiv", "data:read:twitter"]) ∧
    (Concierge.delegate audMap0 true (fun _ => .ok ())
      (fun _ _ => .ok ⟨some "minted", none⟩)
      (some "sess") req3).result = .ok ⟨some "minted", none⟩ ∧
    (Concierge.delegate audMap0 true (fun _ => .ok ())
      (fun _ _ => .ok ⟨some "minted", none⟩)
      (some "sess") req3).exchangeCall
      = some ⟨"aud-scout", ⟨some "data:admin:everything", "aud-scout"⟩⟩ :=
  ⟨by decide, rfl, rfl⟩

/-- Claim C3 (amended): the issuer's delegate operation performs no
entitlement check of its own: for *any* requested scope set it hands the
scopes to the external access-key exchange verbatim (joined by spaces,
never narrowed or widened); it never rejects a request because of its
scopes, and no `ScopeEscalation` error exists on this path — any scope
enforcement is left to the external exchange, whose failures surface as
generic 400/500 delegation errors.  Outside the moderator-token caching
branch the exchange's response is returned unmodified; inside that
branch (truthy `subscription_id`, target `"moderator"`, truthy token in
the response) the undefined `get_redis` raises and a *successful*
exchange surfaces as a 500 delegation failure — still never a scope
rejection. -/
theorem delegate_scopes_verbatim (audMap : Concierge.AudMap) (accessKeyPresent : Bool)
    (sessionOk : String → Except String Unit)
    (exchange : String → Concierge.CustomClaims → Except String Concierge.SdkResp)
    (tokenStr : String) (body : Concierge.DelegateRequest)
    (hsess : sessionOk tokenStr = .ok ()) (htok : tokenStr ≠ "")
    (hne : pyStrip (Concierge.resolveAudience audMap body.target) ≠ "")
    (hkey : accessKeyPresent = true) (hscopes : body.scopes ≠ []) :
    (Concierge.delegate audMap accessKeyPresent sessionOk exchange (some tokenStr)
        body).exchangeCall
      = some ⟨Concierge.resolveAudience audMap body.target,
              ⟨some (String.intercalate " " body.scopes),
               Concierge.resolveAudience audMap body.target⟩⟩ ∧
    (∀ resp, exchange (Concierge.resolveAudience audMap body.target)
        ⟨some (String.intercalate " " body.scopes),
         Concierge.resolveAudience audMap body.target⟩ = .ok resp →
      ¬ (pyTruthyInt body.subscription_id = true ∧ body.target = "moderator" ∧
          pyOrStr resp.sessionToken (pyOrStr resp.jwt "") ≠ "") →
      (Concierge.delegate audMap accessKeyPresent sessionOk exchange (some tokenStr)
          body).result = .ok resp) ∧
    (∀ resp, exchange (Concierge.resolveAudience audMap body.target)
        ⟨some (String.intercalate " " body.scopes),
         Concierge.resolveAudience audMap body.target⟩ = .ok resp →
      pyTruthyInt body.subscription_id = true → body.target = "moderator" →
      pyOrStr resp.sessionToken (pyOrStr resp.jwt "") ≠ "" →
      (Concierge.delegate audMap accessKeyPresent sessionOk exchange (some tokenStr)
          body).result = .error (.delegationFailed Concierge.getRedisNameError)) := by
  subst hkey
  rw [Concierge.delegate]
  rw [if_neg htok, hsess]
  rw [if_neg hne]
  simp only [not_true, if_false, if_neg hscopes]
  refine ⟨?_, ?_, ?_⟩
  · cases hex : exchange (Concierge.resolveAudience audMap body.target)
      ⟨some (String.intercalate " " body.scopes),
       Concierge.resolveAudience audMap body.target⟩ with
    | ok resp =>
      by_cases hmod : pyTruthyInt body.subscription_id = true ∧ body.target = "moderator"
      · by_cases htts : pyOrStr resp.sessionToken (pyOrStr resp.jwt "") ≠ ""
        · simp [hex, hmod, htts]
        · simp [hex, hmod, htts]
      · simp [hex, hmod]
    | error m => by_cases hm : Concierge.mentionsAudience m <;> simp [hex, hm]
  · intro resp hex hnot
    rw [hex]
    by_cases hmod : pyTruthyInt body.subscription_id = true ∧ body.target = "moderator"
    · have htts : ¬ pyOrStr resp.sessionToken (pyOrStr resp.jwt "") ≠ "" := by
        intro hc
        exact hnot ⟨hmod.1, hmod.2, hc⟩
      simp [hmod, htts]
    · simp [hmod]
  · intro resp hex h1 h2 h3
    rw [hex]
    simp [h1, h2, h3]

/-- Claim C3 (witness): the verbatim-scopes theorem at a concrete
request (a non-moderator target, so the successful exchange is returned
unmodified). -/
theorem delegate_scopes_verbatim_witness :
    ((fun _ => (.ok () : Except String Unit)) "sess" = .ok ()) ∧ ("sess" ≠ "") ∧
    (pyStrip (Concierge.resolveAudience audMap0 req3.target) ≠ "") ∧
    (req3.scopes ≠ []) ∧
    ((Concierge.delegate audMap0 true (fun _ => .ok ())
        (fun _ _ => .ok ⟨some "minted", none⟩) (some "sess") req3).exchangeCall
      = some ⟨Concierge.resolveAudience audMap0 req3.target,
              ⟨some (String.intercalate " " req3.scopes),
               Concierge.resolveAudience audMap0 req3.target⟩⟩ ∧
     (∀ resp, (fun _ _ => (.ok ⟨some "minted", none⟩ : Except String Concierge.SdkResp))
          (Concierge.resolveAudience audMap0 req3.target)
          (⟨some (String.intercalate " " req3.scopes),
            Concierge.resolveAudience audMap0 req3.target⟩ : Concierge.CustomClaims)
          = .ok resp →
      ¬ (pyTruthyInt req3.subscription_id = true ∧ req3.target = "moderator" ∧
          pyOrStr resp.sessionToken (pyOrStr resp.jwt "") ≠ "") →
       (Concierge.delegate audMap0 true (fun _ => .ok ())
          (fun _ _ => .ok ⟨some "minted", none⟩) (some "sess") req3).result
          = .ok resp) ∧
     (∀ resp, (fun _ _ => (.ok ⟨some "minted", none⟩ : Except String Concierge.SdkResp))
          (Concierge.resolveAudience audMap0 req3.target)
          (⟨some (String.intercalate " " req3.scopes),
            Concierge.resolveAudience audMap0 req3.target⟩ : Concierge.CustomClaims)
          = .ok resp →
      pyTruthyInt req3.subscription_id = true → req3.target = "moderator" →
      pyOrStr resp.sessionToken (pyOrStr resp.jwt "") ≠ "" →
       (Concierge.delegate audMap0 true (fun _ => .ok ())
          (fun _ _ => .ok ⟨some "minted", none⟩) (some "sess") req3).result
          = .error (.delegationFailed Concierge.getRedisNameError))) :=
  ⟨rfl, by decide, by decide, by decide,
   delegate_scopes_verbatim audMap0 true (fun _ => .ok ())
     (fun _ _ => .ok ⟨some "minted", none⟩) "sess" req3 rfl (by decide) (by decide)
     rfl (by decide)⟩

/-- Claim C4: if a validator instance accepts a token carrying a
non-empty `jti` once, then a second verification of a token with the
same `jti` against the store produced by that acceptance — at any later
time still inside the replay window and itself passing all pre-`jti`
checks — fails with `ReplayDetected` (HTTP 403), in both the
shared-store mode and the in-process fallback mode (the store is
universally quantified over both constructors). -/
theorem jti_replay_second_use (jwks : List String) (tok1 tok2 : Auth.Token)
    (ea1 ea2 : Option String) (rs1 rs2 : Option (List String)) (az1 az2 : Option String)
    (t1 t2 ttl : Int) (st st' : Auth.JtiStore) (c1 : Auth.Claims) (j : String)
    (h1 : Auth.validate_delegated_jwt jwks tok1 ea1 rs1 az1 t1 ttl st = .ok (c1, st'))
    (hj1 : tok1.claims.jti = some j) (hjne : j ≠ "")
    (h2pre : Auth.checkClaimsStage jwks tok2 ea2 rs2 az2 t2 = .ok tok2.claims)
    (hj2 : tok2.claims.jti = some j) (hta : t1 ≤ t2) (htb : t2 < t1 + ttl) :
    Auth.validate_delegated_jwt jwks tok2 ea2 rs2 az2 t2 ttl st'
      = .error .replayDetected ∧
    Auth.AuthError.status .replayDetected = 403 := by
  refine ⟨?_, rfl⟩
  have hpt : ¬ ¬ pyTruthyStr (some j) = true := by simp [pyTruthyStr, hjne]
  rw [Auth.validate_delegated_jwt] at h1
  cases hc : Auth.checkClaimsStage jwks tok1 ea1 rs1 az1 t1 with
  | error e => rw [hc] at h1; cases h1
  | ok c =>
    rw [hc] at h1
    have hcc : c = tok1.claims := checkClaimsStage_ok_claims hc
    subst hcc
    have h1' : (match Auth.recordAndCheckJti ttl t1 tok1.claims.jti st with
        | Except.error e => (Except.error e : Except Auth.AuthError (Auth.Claims × Auth.JtiStore))
        | Except.ok st2 => Except.ok (tok1.claims, st2)) = Except.ok (c1, st') := h1
    rw [hj1] at h1'
    cases hrec : Auth.recordAndCheckJti ttl t1 (some j) st with
    | error e => rw [hrec] at h1'; cases h1'
    | ok st2 =>
      rw [hrec] at h1'
      cases h1'
      rw [Auth.validate_delegated_jwt, h2pre]
      show (match Auth.recordAndCheckJti ttl t2 tok2.claims.jti st' with
          | Except.error e => (Except.error e : Except Auth.AuthError (Auth.Claims × Auth.JtiStore))
          | Except.ok stx => Except.ok (tok2.claims, stx))
          = Except.error Auth.AuthError.replayDetected
      rw [hj2]
      rw [Auth.recordAndCheckJti] at hrec ⊢
      rw [if_neg hpt] at hrec ⊢
      cases st with
      | redisStore es =>
        simp only [Option.getD_some] at hrec ⊢
        by_cases hlive : ((es.filter (fun p => t1 < p.2)).any
            (fun p => p.1 = "veritas:jti:" ++ j)) = true
        · rw [if_pos hlive] at hrec; cases hrec
        · rw [if_neg hlive] at hrec
          cases hrec
          simp [List.filter_cons, htb]
      | localStore es =>
        simp only [Option.getD_some] at hrec ⊢
        by_cases hmem : ((es.filter (fun p => ¬ p.2 < t1)).any (fun p => p.1 = j)) = true
        · rw [if_pos hmem] at hrec; cases hrec
        · rw [if_neg hmem] at hrec
          cases hrec
          have hnlt : ¬ (t1 + ttl) < t2 := by omega
          have hcond : ((List.filter (fun p => decide (¬ p.2 < t2))
              ((j, t1 + ttl) :: List.filter (fun p => decide (¬ p.2 < t1)) es)).any
              (fun p => decide (p.1 = j))) = true := by
            rw [List.filter_cons_of_pos (by simpa using hnlt)]
            simp
          simp only [hcond, if_true]

/-- Claim C4 (witness): the replay theorem at a concrete token, first
accepted at time 10 and replayed at time 20 within the 300-second
window. -/
theorem jti_replay_second_use_witness :
    (Auth.validate_delegated_jwt ["k1"] tok4 none none none 10 300 (.localStore [])
      = .ok (tok4.claims, .localStore [("j1", 310)])) ∧
    (Auth.checkClaimsStage ["k1"] tok4 none none none 20 = .ok tok4.claims) ∧
    (Auth.validate_delegated_jwt ["k1"] tok4 none none none 20 300
        (.localStore [("j1", 310)]) = .error .replayDetected ∧
     Auth.AuthError.status .replayDetected = 403) :=
  ⟨rfl, rfl,
   jti_replay_second_use ["k1"] tok4 tok4 none none none none none none 10 20 300
     (.localStore []) (.localStore [("j1", 310)]) tok4.claims "j1"
     rfl rfl (by decide) rfl rfl (by decide) (by decide)⟩

/-- Claim C5: the fingerprint of a feed entry with body `B` and url `U`
is the SHA-256 hex digest of the string `B ++ "|" ++ U` (refinement
against the spec-worded `fingerprintSpec`), and for every fingerprint
value at most one `items` row ever exists no matter how many poll cycles
observe entries carrying it; re-delivering an entry whose fingerprint is
already stored leaves the state completely unchanged (zero new rows). -/
theorem fingerprint_dedup (subId : Int) (source : String) (now : Int)
    (cycles : List (List Scout.Entry)) (st : Scout.ScoutDB × Redis)
    (hinit : ∀ v, st.1.items.countP (fun it => it.fingerprint = v) ≤ 1) :
    (∀ B U, Scout.fingerprint B U = fingerprintSpec B U) ∧
    (∀ v, ((Scout.pollCycles subId source now cycles st).1.items.countP
        (fun it => it.fingerprint = v)) ≤ 1) ∧
    (∀ e, st.1.items.any (fun it => it.fingerprint = Scout.entryFp e) = true →
      Scout.processEntry subId source now st e = st) := by
  refine ⟨fun B U => rfl, ?_, ?_⟩
  · have hkeep : ∀ (s : Scout.ScoutDB × Redis) (es : List Scout.Entry),
        (∀ v, s.1.items.countP (fun it => it.fingerprint = v) ≤ 1) →
        (∀ v, (Scout.fetch_and_store_once subId source now es s).1.items.countP
            (fun it => it.fingerprint = v) ≤ 1) := by
      intro s es hs
      exact foldlPreserves _ _ (fun s' e hs' => processEntry_count_le subId source now s' e hs')
        es s hs
    exact foldlPreserves _ _ (fun s' es hs' => hkeep s' es hs') cycles st hinit
  · intro e hany
    simp only [Scout.processEntry, hany, if_true]

/-- Claim C5 (witness): the dedup theorem run from the empty store over
a cycle list that delivers the same entry. -/
theorem fingerprint_dedup_witness :
    (∀ v, ((Scout.ScoutDB.empty, Redis.empty) : Scout.ScoutDB × Redis).1.items.countP
        (fun it => it.fingerprint = v) ≤ 1) ∧
    ((∀ B U, Scout.fingerprint B U = fingerprintSpec B U) ∧
     (∀ v, ((Scout.pollCycles 1 "arxiv" 100 [[entry1], [entry1]]
          (Scout.ScoutDB.empty, Redis.empty)).1.items.countP
          (fun it => it.fingerprint = v)) ≤ 1) ∧
     (∀ e, ((Scout.ScoutDB.empty, Redis.empty) : Scout.ScoutDB × Redis).1.items.any
          (fun it => it.fingerprint = Scout.entryFp e) = true →
        Scout.processEntry 1 "arxiv" 100 (Scout.ScoutDB.empty, Redis.empty) e
          = (Scout.ScoutDB.empty, Redis.empty))) :=
  ⟨fun v => by simp [Scout.ScoutDB.empty],
   fingerprint_dedup 1 "arxiv" 100 [[entry1], [entry1]] (Scout.ScoutDB.empty, Redis.empty)
     (fun v => by simp [Scout.ScoutDB.empty])⟩

/-- Claim C6 (counterexample): a message consumed from the extractor's
input queue whose `item_id` resolves to no stored item produces *zero*
insight rows, refuting "every message consumed produces exactly one
Insight row". -/
theorem analyst_missing_item_no_insight_cex :
    (Analyst.process_item (fun _ => Analyst.LLMAttempt.timeout) 3 100 Scout.ScoutDB.empty
      ⟨42, some 1⟩ (Analyst.AnalystDB.empty, [])).1.insights = [] ∧
    (Analyst.process_item (fun _ => Analyst.LLMAttempt.timeout) 3 100 Scout.ScoutDB.empty
      ⟨42, some 1⟩ (Analyst.AnalystDB.empty, [])).2 = [] :=
  ⟨rfl, rfl⟩

/-- Claim C6 (amended): every consumed message whose `item_id` resolves
to a stored item and whose subscription resolves to a non-empty owner
produces exactly one Insight row; when every retry attempt fails, times
out or returns unparseable output, the persisted row has `score = 0.0`
and `insight_type = "other"` rather than the item being dropped.
(Messages with an unresolvable item or owner are abandoned with zero
rows — the counterexample.) -/
theorem analyst_exactly_one_insight (oracle : Nat → Analyst.LLMAttempt)
    (retries : Nat) (now : Int) (scoutDb : Scout.ScoutDB) (obj : QueueMsg)
    (st : Analyst.AnalystDB × List Analyst.NotifyMsg) (item : Scout.Item) (u : String)
    (hitem : Analyst.load_item scoutDb obj.item_id = some item)
    (huser : Analyst.userOf scoutDb item.subscription_id = some u) (hu : u ≠ "") :
    ∃ row : Analyst.InsightRow,
      (Analyst.process_item oracle retries now scoutDb obj st).1.insights
        = st.1.insights ++ [row] ∧
      (Analyst.process_item oracle retries now scoutDb obj st).1.nextInsightId
        = st.1.nextInsightId + 1 ∧
      ((∀ k, k < retries → failedAnalystAttempt (oracle k)) →
        row.score = 0 ∧ row.insight_type = some "other") := by
  rw [Analyst.process_item, hitem]
  simp only [huser]
  rw [if_neg hu]
  refine ⟨_, rfl, rfl, ?_⟩
  intro hfailAll
  have h0 : (Analyst.runRetries oracle 0 retries).1 = none :=
    analystRunRetries_noParse oracle retries 0 (fun k _ hk => hfailAll k (by omega))
  rw [h0]
  constructor
  · show pyRound2 ((Analyst.fallbackParsed.score).getD 0) = 0
    decide
  · rfl

/-- Claim C6 (witness): the exactly-one-insight theorem on a concrete
store with an all-timeout oracle. -/
theorem analyst_exactly_one_insight_witness :
    (Analyst.load_item scoutDb6 (({ item_id := 1, subscription_id := some 1 } :
        QueueMsg)).item_id = some item6) ∧
    (Analyst.userOf scoutDb6 item6.subscription_id = some "u1") ∧ ("u1" ≠ "") ∧
    (∃ row : Analyst.InsightRow,
      (Analyst.process_item (fun _ => Analyst.LLMAttempt.timeout) 3 100 scoutDb6
        { item_id := 1, subscription_id := some 1 }
        (Analyst.AnalystDB.empty, [])).1.insights
        = (Analyst.AnalystDB.empty).insights ++ [row] ∧
      (Analyst.process_item (fun _ => Analyst.LLMAttempt.timeout) 3 100 scoutDb6
        { item_id := 1, subscription_id := some 1 }
        (Analyst.AnalystDB.empty, [])).1.nextInsightId
        = (Analyst.AnalystDB.empty).nextInsightId + 1 ∧
      ((∀ k, k < 3 → failedAnalystAttempt ((fun _ => Analyst.LLMAttempt.timeout) k)) →
        row.score = 0 ∧ row.insight_type = some "other")) :=
  ⟨rfl, rfl, by decide,
   analyst_exactly_one_insight (fun _ => Analyst.LLMAttempt.timeout) 3 100 scoutDb6
     { item_id := 1, subscription_id := some 1 } (Analyst.AnalystDB.empty, []) item6 "u1"
     rfl rfl (by decide)⟩

/-- Claim C7: after every batcher run all `pending_dispatch` rows are
deleted globally, regardless of email failures; each group's digest
lists its insights in descending score order; and in the concrete
two-notification scenario (scores 0.9 and 0.3 for one owner and
subscription, with every SMTP send failing) the digest body carries the
0.90 entry first and the pending rows are still cleared. -/
theorem digest_clear_and_order (emailOk : String → Bool)
    (analystDb : Analyst.AnalystDB) (now : Int) (db : Dispatcher.DispatcherDB) :
    (Dispatcher.send_weekly_digest emailOk analystDb now db).1.pending_dispatch = [] ∧
    (∀ g ∈ (Dispatcher.send_weekly_digest emailOk analystDb now db).2,
      List.Pairwise (fun a b => b.2.1 ≤ a.2.1) g.entries) ∧
    (Dispatcher.send_weekly_digest (fun _ => false) adb7 30 ddb7).2 = [digest7] ∧
    (Dispatcher.send_weekly_digest (fun _ => false) adb7 30 ddb7).1.pending_dispatch = [] := by
  refine ⟨rfl, ?_, by decide, rfl⟩
  intro g hg
  rw [Dispatcher.send_weekly_digest] at hg
  dsimp only at hg
  rcases List.mem_map.mp hg with ⟨key, hkey, rfl⟩
  exact digestForGroup_entries_sorted emailOk analystDb db key

/-- Claim C8 (counterexample): a token whose `exp` equals the current
verification time is *accepted*, not rejected as `Expired` — the code
compares with strict `<`. -/
theorem exp_equal_now_accepted_cex :
    tok8.claims.exp = some 100 ∧
    Auth.validate_delegated_jwt ["k1"] tok8 none none none 100 300 (.localStore [])
      = .ok (tok8.claims, .localStore []) :=
  ⟨rfl, rfl⟩

/-- Claim C8 (amended): given the external checks pass (header, key id,
signature), `validate_delegated_jwt` fails with `Expired` exactly when
`exp` is missing or *strictly* before `now` — a token with `exp = now`
is accepted — and fails with `NotYetValid` exactly when `exp` passes and
a truthy `iat` lies more than the 60-second clock-skew allowance in the
future. -/
theorem expiry_boundary (jwks : List String) (tok : Auth.Token) (k : String)
    (ea : Option String) (rs : Option (List String)) (az : Option String)
    (now ttl : Int) (st : Auth.JtiStore)
    (hhdr : tok.headerOk = true) (hkid : tok.kid = some k)
    (hjw : jwks.contains k = true) (hsig : tok.sigOk = true) :
    (Auth.validate_delegated_jwt jwks tok ea rs az now ttl st = .error .expired ↔
      tok.claims.exp = none ∨ ∃ e, tok.claims.exp = some e ∧ e < now) ∧
    (Auth.validate_delegated_jwt jwks tok ea rs az now ttl st = .error .notYetValid ↔
      (∃ e, tok.claims.exp = some e ∧ now ≤ e) ∧
      (∃ i, tok.claims.iat = some i ∧ i ≠ 0 ∧ now + 60 < i)) := by
  have hval : ∀ er : Auth.AuthError,
      Auth.validate_delegated_jwt jwks tok ea rs az now ttl st = .error er ↔
        (Auth.claimsError jwks tok ea rs az now = some er ∨
         (Auth.claimsError jwks tok ea rs az now = none ∧
          Auth.recordAndCheckJti ttl now tok.claims.jti st = .error er)) := by
    intro er
    rw [Auth.validate_delegated_jwt, Auth.checkClaimsStage]
    cases hce : Auth.claimsError jwks tok ea rs az now with
    | some e2 => simp [hce]
    | none =>
      cases hr : Auth.recordAndCheckJti ttl now tok.claims.jti st with
      | error e3 => simp [hr]
      | ok st2 => simp [hr]
  have hexpCh : Auth.claimsError jwks tok ea rs az now = some Auth.AuthError.expired ↔
      Auth.expCheckFails tok.claims.exp now = true := by
    simp only [Auth.claimsError, hhdr, hkid, hjw, hsig, not_true, Bool.not_eq_true]
    split_ifs <;> simp_all
  have hiatCh : Auth.claimsError jwks tok ea rs az now = some Auth.AuthError.notYetValid ↔
      (Auth.expCheckFails tok.claims.exp now = false ∧
       Auth.iatCheckFails tok.claims.iat now = true) := by
    simp only [Auth.claimsError, hhdr, hkid, hjw, hsig, not_true, Bool.not_eq_true]
    split_ifs <;> simp_all
  constructor
  · rw [hval, hexpCh]
    rw [← expCheckFails_iff tok.claims.exp now]
    constructor
    · rintro (h | ⟨h1, h2⟩)
      · exact h
      · exact absurd (recordJti_errors_replay ttl now tok.claims.jti st _ h2) (by simp)
    · exact Or.inl
  · rw [hval, hiatCh]
    rw [← iatCheckFails_iff tok.claims.iat now]
    constructor
    · rintro (⟨h1, h2⟩ | ⟨h1, h2⟩)
      · refine ⟨?_, h2⟩
        cases hexp : tok.claims.exp with
        | none => rw [hexp] at h1; cases h1
        | some e =>
          refine ⟨e, rfl, ?_⟩
          rw [hexp] at h1
          simpa [Auth.expCheckFails] using h1
      · exact absurd (recordJti_errors_replay ttl now tok.claims.jti st _ h2) (by simp)
    · rintro ⟨⟨e, he, hle⟩, hiat⟩
      refine Or.inl ⟨?_, hiat⟩
      rw [he]
      simpa [Auth.expCheckFails] using hle

/-- Claim C8 (witness): the boundary characterization at a concrete
valid token. -/
theorem expiry_boundary_witness :
    (tok4.headerOk = true) ∧ (tok4.kid = some "k1") ∧
    ((["k1"] : List String).contains "k1" = true) ∧ (tok4.sigOk = true) ∧
    ((Auth.validate_delegated_jwt ["k1"] tok4 none none none 100 300 (.localStore [])
        = .error .expired ↔
      tok4.claims.exp = none ∨ ∃ e, tok4.claims.exp = some e ∧ e < 100) ∧
     (Auth.validate_delegated_jwt ["k1"] tok4 none none none 100 300 (.localStore [])
        = .error .notYetValid ↔
      (∃ e, tok4.claims.exp = some e ∧ (100:Int) ≤ e) ∧
      (∃ i, tok4.claims.iat = some i ∧ i ≠ 0 ∧ (100:Int) + 60 < i))) :=
  ⟨rfl, rfl, by decide, rfl,
   expiry_boundary ["k1"] tok4 "k1" none none none 100 300 (.localStore [])
     rfl rfl (by decide) rfl⟩

/-- Claim C9 (counterexample): unsubscribing an already-absent
subscription id with a valid read-scoped credential does *not* succeed
reporting absence — it raises a 404 error. -/
theorem unsubscribe_absent_404_cex :
    Scout.delete_subscription ["data:read:arxiv"] 1 Scout.ScoutDB.empty
      = .error (.notFound "subscription not found") ∧
    Scout.ApiError.status (.notFound "subscription not found") = 404 :=
  ⟨rfl, rfl⟩

/-- Claim C9 (amended): with a credential carrying a relevant read
scope, unsubscribing an absent subscription id always fails with the 404
`subscription not found` error — the operation is *not* idempotent with
respect to absence. -/
theorem unsubscribe_absent_is_error (scopes : List String) (db : Scout.ScoutDB)
    (sub_id : Int)
    (hscope : scopes.contains "data:read:arxiv" = true ∨
              scopes.contains "data:read:twitter" = true)
    (habs : db.subscriptions.find? (fun x => x.id = sub_id) = none) :
    Scout.delete_subscription scopes sub_id db
      = .error (.notFound "subscription not found") ∧
    Scout.ApiError.status (.notFound "subscription not found") = 404 := by
  refine ⟨?_, rfl⟩
  rw [Scout.delete_subscription, if_neg (not_not_intro hscope), habs]

/-- Claim C9 (witness): the not-idempotent theorem at the empty store. -/
theorem unsubscribe_absent_is_error_witness :
    (((["data:read:arxiv"] : List String).contains "data:read:arxiv" = true ∨
      (["data:read:arxiv"] : List String).contains "data:read:twitter" = true)) ∧
    ((Scout.ScoutDB.empty).subscriptions.find? (fun x => x.id = 7) = none) ∧
    (Scout.delete_subscription ["data:read:arxiv"] 7 Scout.ScoutDB.empty
      = .error (.notFound "subscription not found") ∧
     Scout.ApiError.status (.notFound "subscription not found") = 404) :=
  ⟨by decide, rfl,
   unsubscribe_absent_is_error ["data:read:arxiv"] Scout.ScoutDB.empty 7 (by decide) rfl⟩

/-- Claim C10: deleting a subscription cascades — with the declared
`ON DELETE CASCADE` foreign key honoured under `PRAGMA foreign_keys =
ON`, every `items` row of that subscription is deleted too (and only
those), so any fingerprint held exclusively by that subscription leaves
the dedup index and an identical upstream entry is ingested again (a
fresh row is inserted) on a later poll. -/
theorem delete_subscription_cascade (scopes : List String) (db : Scout.ScoutDB)
    (sub_id : Int) (s : Scout.Subscription)
    (hscope : scopes.contains "data:read:arxiv" = true ∨
              scopes.contains "data:read:twitter" = true)
    (hfind : db.subscriptions.find? (fun x => x.id = sub_id) = some s) :
    ∃ db', Scout.delete_subscription scopes sub_id db = .ok db' ∧
      (∀ it ∈ db'.items, it.subscription_id ≠ some sub_id) ∧
      (∀ it ∈ db.items, it.subscription_id ≠ some sub_id → it ∈ db'.items) ∧
      (∀ (subId' : Int) (source : String) (now : Int) (r : Redis) (e : Scout.Entry),
        (∀ it ∈ db.items, it.fingerprint = Scout.entryFp e →
            it.subscription_id = some sub_id) →
        (Scout.processEntry subId' source now (db', r) e).1.items.length
          = db'.items.length + 1) := by
  have hc : ¬ ¬ (scopes.contains "data:read:arxiv" ∨ scopes.contains "data:read:twitter") :=
    not_not_intro hscope
  refine ⟨({ db with
      subscriptions := db.subscriptions.filter (fun x => x.id ≠ sub_id),
      items := db.items.filter (fun it => it.subscription_id ≠ some sub_id) } : Scout.ScoutDB),
    ?_, ?_, ?_, ?_⟩
  · rw [Scout.delete_subscription, if_neg hc, hfind]
  · intro it hit
    simpa using (List.mem_filter.mp hit).2
  · intro it hit hne
    exact List.mem_filter.mpr ⟨hit, by simpa using hne⟩
  · intro subId' source now r e hall
    have hany : ((db.items.filter (fun it => it.subscription_id ≠ some sub_id)).any
        (fun it => it.fingerprint = Scout.entryFp e)) = false := by
      rw [List.any_eq_false]
      intro it hit
      obtain ⟨hmem, hpred⟩ := List.mem_filter.mp hit
      have hsub : it.subscription_id ≠ some sub_id := by simpa using hpred
      intro hfp
      exact hsub (hall it hmem (by simpa using hfp))
    have hne : ¬ ((db.items.filter (fun it => it.subscription_id ≠ some sub_id)).any
        (fun it => it.fingerprint = Scout.entryFp e) = true) := by
      rw [hany]; exact Bool.false_ne_true
    simp only [Scout.processEntry]
    rw [if_neg hne]
    simp

/-- Claim C10 (witness): the cascade theorem on a store holding one
subscription and one of its items. -/
theorem delete_subscription_cascade_witness :
    (((["data:read:arxiv"] : List String).contains "data:read:arxiv" = true ∨
      (["data:read:arxiv"] : List String).contains "data:read:twitter" = true)) ∧
    (scoutDb6.subscriptions.find? (fun x => x.id = 1) = some sub6) ∧
    (∃ db', Scout.delete_subscription ["data:read:arxiv"] 1 scoutDb6 = .ok db' ∧
      (∀ it ∈ db'.items, it.subscription_id ≠ some 1) ∧
      (∀ it ∈ scoutDb6.items, it.subscription_id ≠ some 1 → it ∈ db'.items) ∧
      (∀ (subId' : Int) (source : String) (now : Int) (r : Redis) (e : Scout.Entry),
        (∀ it ∈ scoutDb6.items, it.fingerprint = Scout.entryFp e →
            it.subscription_id = some 1) →
        (Scout.processEntry subId' source now (db', r) e).1.items.length
          = db'.items.length + 1)) :=
  ⟨by decide, rfl,
   delete_subscription_cascade ["data:read:arxiv"] scoutDb6 1 sub6 (by decide) rfl⟩

end Veritas
